import Mathlib

/-!
Shallow embedding of the tensor core of `src/src/tensor/impl_tensor.rs`
(the `dfdx` crate's per-rank tensor impls).

Conventions of the embedding:
* `f32` element values are rendered as `Rat` (an idealized exact numeric
  model; the structural claims verified here do not depend on rounding).
* The per-rank macro-generated types `Tensor0D … Tensor4D<M,…>` are rendered
  as one `Tensor` type indexed by the list of declared axis extents; the
  macro-generated impl is identical for every rank, so the list-indexed
  rendering covers all five instantiations at once.
* An `ndarray` n-d array is rendered as its flat list of elements in memory
  (row-major) order; `ndarray` is an external collaborator, so only the
  primitives the source uses (`zeros`, `ones`, `map_inplace`, `sub_assign`)
  are modelled.
* The process-wide unique-id counter (a global in the crate, outside
  `src/`) is threaded explicitly as a `Nat` state.
-/

namespace Dfdx

/-- Embedding of the `prod!` macro of impl_tensor.rs: product of a list of
axis extents, with `prod!() = 1` for the empty (rank-0) extent list. -/
def prodMacro : List Nat → Nat
  | [] => 1
  | [m] => m
  | m :: rest => m * prodMacro rest

/-- `IsShapedArray::NUM_ELEMENTS` of impl_tensor.rs: `prod!` of the declared
axis extents. -/
def NUM_ELEMENTS (sh : List Nat) : Nat := prodMacro sh

/-- Embedding of the `tupleify!` macro at rank 0: the empty tuple. -/
def tupleify0 : Unit := ()

/-- Embedding of the `tupleify!` macro at rank 1: the one-tuple `(M,)`,
rendered as the bare extent. -/
def tupleify1 (m : Nat) : Nat := m

/-- Embedding of the `tupleify!` macro at rank 2: the pair `(M, N)`. -/
def tupleify2 (m n : Nat) : Nat × Nat := (m, n)

/-- Embedding of the `tupleify!` macro at rank 3: the triple `(M, N, O)`. -/
def tupleify3 (m n o : Nat) : Nat × Nat × Nat := (m, n, o)

/-- Embedding of the `tupleify!` macro at rank 4: the 4-tuple `(M, N, O, P)`. -/
def tupleify4 (m n o p : Nat) : Nat × Nat × Nat × Nat := (m, n, o, p)

/-- Modelled from the spec: `GradientTape` lives in `gradients.rs`, which is
not under `src/`. The source file only calls its query method
`gradient_for(id)`, which per the spec returns the accumulated gradient
array for an id (zeros when the id never contributed). The tape is therefore
modelled at its interface: a function from unique id to gradient array. -/
structure GradientTape where
  gradient_for : Nat → List Rat

/-- The tensor entity of `structs.rs` (declared outside `src/`; its fields
`data`, `id` and `tape` are fixed by their uses in impl_tensor.rs):
a shaped data array, a unique id, and an optionally owned gradient tape. -/
structure Tensor (sh : List Nat) where
  data : List Rat
  id : Nat
  tape : Option GradientTape

/-- `Tensor0D`: the rank-0 instantiation `tensor_impl!(Tensor0D, [], …)`. -/
abbrev Tensor0D := Tensor []

/-- `Tensor1D<M>`: the rank-1 instantiation. -/
abbrev Tensor1D (m : Nat) := Tensor [m]

/-- `Tensor2D<M, N>`: the rank-2 instantiation. -/
abbrev Tensor2D (m n : Nat) := Tensor [m, n]

/-- `Tensor3D<M, N, O>`: the rank-3 instantiation. -/
abbrev Tensor3D (m n o : Nat) := Tensor [m, n, o]

/-- `Tensor4D<M, N, O, P>`: the rank-4 instantiation. -/
abbrev Tensor4D (m n o p : Nat) := Tensor [m, n, o, p]

/-- Modelled from the spec: `next_id()` of the Unique Identity component
(outside `src/`) returns a fresh integer and advances the process-wide
counter; the counter state is threaded explicitly. -/
def next_id (s : Nat) : Nat × Nat := (s, s + 1)

/-- Modelled from the spec: `Tensor::new(data)` (declared in `structs.rs`,
outside `src/`) wraps a data array, assigns a fresh unique id drawn from the
counter, and attaches no tape. Returns the tensor and the advanced counter. -/
def Tensor.new (sh : List Nat) (d : List Rat) (s : Nat) : Tensor sh × Nat :=
  ((⟨d, (next_id s).1, none⟩ : Tensor sh), (next_id s).2)

/-- `ndarray`'s `Array::zeros(shape)` (external collaborator): a dense array
of the given shape with every element `0`, as its flat element list. -/
def ndarrayZeros (sh : List Nat) : List Rat := List.replicate (NUM_ELEMENTS sh) 0

/-- `ndarray`'s `Array::ones(shape)` (external collaborator): a dense array
of the given shape with every element `1`, as its flat element list. -/
def ndarrayOnes (sh : List Nat) : List Rat := List.replicate (NUM_ELEMENTS sh) 1

/-- `ndarray`'s in-place `sub_assign` (external collaborator): elementwise
subtraction of two same-shaped arrays, on flat element lists. -/
def sub_assign (d g : List Rat) : List Rat := List.zipWith (fun a b => a - b) d g

/-- `HasGradients::update_with_gradients` of impl_tensor.rs:
`let gradient = tape.gradient_for(self.id); self.mut_data().sub_assign(gradient)`.
Only the `data` field is written. -/
def Tensor.update_with_gradients {sh : List Nat} (t : Tensor sh) (tape : GradientTape) :
    Tensor sh :=
  { t with data := sub_assign t.data (tape.gradient_for t.id) }

/-- `ndarray`'s `map_inplace` filling every element from successive draws of
a random source (external collaborator): the source is modelled as a stream
`draw : Nat → Rat` read at successive positions, in the array's memory
(row-major) traversal order. Returns the filled flat list of `n` elements
and the advanced stream position. -/
def fillWith (draw : Nat → Rat) : Nat → Nat → List Rat × Nat
  | 0, pos => ([], pos)
  | n + 1, pos => ((draw pos) :: (fillWith draw n (pos + 1)).1, (fillWith draw n (pos + 1)).2)

/-- `Randomize::randomize` of impl_tensor.rs:
`self.mut_data().map_inplace(|f| *f = dist.sample(rng))` — every element of
`data` is overwritten by a fresh draw; `id` and `tape` are untouched. -/
def Tensor.randomize {sh : List Nat} (t : Tensor sh) (draw : Nat → Rat) (pos : Nat) :
    Tensor sh × Nat :=
  (({ t with data := (fillWith draw t.data.length pos).1 } : Tensor sh),
   (fillWith draw t.data.length pos).2)

/-- An external random generator (the `rand` crate is an external
collaborator): a deterministic stream of uniform draws, a deterministic
stream of standard-normal draws, and the current stream position. Sampling
reads the stream at the current position and advances it. -/
structure RandGen where
  uniform : Nat → Rat
  normal : Nat → Rat
  state : Nat

/-- `TensorSugar::zeros` of impl_tensor.rs: `Self::new(Array::zeros(Self::SHAPE))`. -/
def Tensor.zeros (sh : List Nat) (s : Nat) : Tensor sh × Nat :=
  Tensor.new sh (ndarrayZeros sh) s

/-- `TensorSugar::ones` of impl_tensor.rs: `Self::new(Array::ones(Self::SHAPE))`. -/
def Tensor.ones (sh : List Nat) (s : Nat) : Tensor sh × Nat :=
  Tensor.new sh (ndarrayOnes sh) s

/-- `TensorSugar::rand` of impl_tensor.rs: allocate `Array::zeros(SHAPE)`,
overwrite every element in traversal order with a `Standard` (uniform in
[0,1)) draw from the supplied generator, and wrap with `Self::new`. Returns
the tensor, the advanced generator, and the advanced id counter. -/
def Tensor.rand (sh : List Nat) (g : RandGen) (s : Nat) : Tensor sh × RandGen × Nat :=
  let fd := fillWith g.uniform (NUM_ELEMENTS sh) g.state
  let ns := Tensor.new sh fd.1 s
  (ns.1, { g with state := fd.2 }, ns.2)

/-- `TensorSugar::randn` of impl_tensor.rs: as `rand`, but drawing from
`StandardNormal`. -/
def Tensor.randn (sh : List Nat) (g : RandGen) (s : Nat) : Tensor sh × RandGen × Nat :=
  let fd := fillWith g.normal (NUM_ELEMENTS sh) g.state
  let ns := Tensor.new sh fd.1 s
  (ns.1, { g with state := fd.2 }, ns.2)

/-- Modelled from the spec: an Operation Descriptor of `diff_fns.rs`
(outside `src/`): a pure scalar forward function paired with its
derivative, identified by a type tag. -/
structure OpDescr where
  forward : Rat → Rat
  derivative : Rat → Rat

/-- Modelled from the spec: the nine operation descriptor type tags that
`diff_fns.rs` (outside `src/`) declares. Their concrete analytic functions
live outside `src/`, so the nine descriptors are carried abstractly as the
fields of this bundle and quantified over in the theorems. -/
structure DiffFns where
  ReLU : OpDescr
  Sin : OpDescr
  Cos : OpDescr
  Ln : OpDescr
  Exp : OpDescr
  Sigmoid : OpDescr
  Tanh : OpDescr
  Square : OpDescr
  Abs : OpDescr

/-- Modelled from the spec: the generic `apply::<Op>()` mechanism of
`traits.rs` (outside `src/`): map the descriptor's forward function
elementwise over the input's data, return a new tensor with a fresh unique
id and a tape reference continuing the lineage (tape-entry recording is
internal to `gradients.rs` and not observed by any verified claim). -/
def Tensor.apply {sh : List Nat} (t : Tensor sh) (op : OpDescr) (s : Nat) :
    Tensor sh × Nat :=
  ((⟨t.data.map op.forward, (next_id s).1, t.tape⟩ : Tensor sh), (next_id s).2)

/-- `TensorSugar::relu` of impl_tensor.rs: `self.apply::<ReLU>()`. -/
def Tensor.relu {sh : List Nat} (t : Tensor sh) (F : DiffFns) (s : Nat) : Tensor sh × Nat :=
  t.apply F.ReLU s

/-- `TensorSugar::sin` of impl_tensor.rs: `self.apply::<Sin>()`. -/
def Tensor.sin {sh : List Nat} (t : Tensor sh) (F : DiffFns) (s : Nat) : Tensor sh × Nat :=
  t.apply F.Sin s

/-- `TensorSugar::cos` of impl_tensor.rs: `self.apply::<Cos>()`. -/
def Tensor.cos {sh : List Nat} (t : Tensor sh) (F : DiffFns) (s : Nat) : Tensor sh × Nat :=
  t.apply F.Cos s

/-- `TensorSugar::ln` of impl_tensor.rs: `self.apply::<Ln>()`. -/
def Tensor.ln {sh : List Nat} (t : Tensor sh) (F : DiffFns) (s : Nat) : Tensor sh × Nat :=
  t.apply F.Ln s

/-- `TensorSugar::exp` of impl_tensor.rs: `self.apply::<Exp>()`. -/
def Tensor.exp {sh : List Nat} (t : Tensor sh) (F : DiffFns) (s : Nat) : Tensor sh × Nat :=
  t.apply F.Exp s

/-- `TensorSugar::sigmoid` of impl_tensor.rs: `self.apply::<Sigmoid>()`. -/
def Tensor.sigmoid {sh : List Nat} (t : Tensor sh) (F : DiffFns) (s : Nat) : Tensor sh × Nat :=
  t.apply F.Sigmoid s

/-- `TensorSugar::tanh` of impl_tensor.rs: `self.apply::<Tanh>()`. -/
def Tensor.tanh {sh : List Nat} (t : Tensor sh) (F : DiffFns) (s : Nat) : Tensor sh × Nat :=
  t.apply F.Tanh s

/-- `TensorSugar::square` of impl_tensor.rs: `self.apply::<Square>()`. -/
def Tensor.square {sh : List Nat} (t : Tensor sh) (F : DiffFns) (s : Nat) : Tensor sh × Nat :=
  t.apply F.Square s

/-- `TensorSugar::abs` of impl_tensor.rs: `self.apply::<Abs>()`. -/
def Tensor.abs {sh : List Nat} (t : Tensor sh) (F : DiffFns) (s : Nat) : Tensor sh × Nat :=
  t.apply F.Abs s

/-- A heterogeneous construction request: a shape together with the data
payload the constructor would produce for it. -/
def ConstructReq : Type := Σ _ : List Nat, List Rat

/-- A sequence of tensor constructions threaded through the shared unique-id
counter: every construction helper (`zeros`, `ones`, `rand`, `randn`, …)
funnels through `Tensor::new`, which issues exactly one fresh id. -/
def constructMany : List ConstructReq → Nat → List ((sh : List Nat) × Tensor sh) × Nat
  | [], s => ([], s)
  | ⟨sh, d⟩ :: rest, s =>
    ((⟨sh, (Tensor.new sh d s).1⟩ :: (constructMany rest (Tensor.new sh d s).2).1),
     (constructMany rest (Tensor.new sh d s).2).2)

/-- The ids of a list of constructed tensors, in construction order. -/
def idsOf (l : List ((sh : List Nat) × Tensor sh)) : List Nat :=
  l.map fun x => x.2.id

/-- A concrete operation-descriptor bundle, used only to instantiate
theorems at concrete inputs. -/
def sampleFns : DiffFns :=
  ⟨⟨id, id⟩, ⟨id, id⟩, ⟨id, id⟩, ⟨id, id⟩, ⟨id, id⟩, ⟨id, id⟩, ⟨id, id⟩, ⟨id, id⟩, ⟨id, id⟩⟩

/-- A concrete rank-1 tensor, used only to instantiate theorems at concrete
inputs. -/
def sampleTensor : Tensor [1] := ⟨[3], 0, none⟩

/-- A concrete random generator, used only to instantiate theorems at
concrete inputs. -/
def sampleGen : RandGen := ⟨fun n => (n : Rat), fun n => (n : Rat) + 1, 0⟩

/-- A concrete rank-1 tensor `[4]` with id 7, used only to instantiate
theorems at concrete inputs. -/
def sampleT1 : Tensor [1] := ⟨[4], 7, none⟩

/-- A concrete tape whose every gradient is `[3]`, used only to instantiate
theorems at concrete inputs. -/
def sampleTape3 : GradientTape := ⟨fun _ => [3]⟩

/-- A concrete rank-1 tensor `[4, 5]` with id 2, used only to instantiate
theorems at concrete inputs. -/
def sampleT2 : Tensor [2] := ⟨[4, 5], 2, none⟩

/-- A concrete tape whose every gradient is `[0, 0]`, used only to
instantiate theorems at concrete inputs. -/
def sampleTapeZero : GradientTape := ⟨fun _ => [0, 0]⟩

/-! ### Helper lemmas -/

theorem zipWith_sub_getD (l g : List Rat) (i : Nat) (hl : i < l.length)
    (hg : i < g.length) :
    (List.zipWith (fun a b => a - b) l g).getD i 0 = l.getD i 0 - g.getD i 0 := by
  induction l generalizing g i with
  | nil => simp at hl
  | cons a l ih =>
    cases g with
    | nil => simp at hg
    | cons b g =>
      cases i with
      | zero => simp [List.getD]
      | succ j =>
        simp only [List.zipWith_cons_cons, List.getD_cons_succ]
        exact ih g j (Nat.lt_of_succ_lt_succ hl) (Nat.lt_of_succ_lt_succ hg)

theorem zipWith_sub_replicate_zero (l : List Rat) :
    List.zipWith (fun a b => a - b) l (List.replicate l.length 0) = l := by
  induction l with
  | nil => rfl
  | cons a l ih => simp [List.replicate_succ, ih]

theorem fillWith_length (draw : Nat → Rat) (n pos : Nat) :
    (fillWith draw n pos).1.length = n := by
  induction n generalizing pos with
  | zero => rfl
  | succ m ih => simp [fillWith, ih]

theorem fillWith_getD (draw : Nat → Rat) (n pos i : Nat) (h : i < n) :
    (fillWith draw n pos).1.getD i 0 = draw (pos + i) := by
  induction n generalizing pos i with
  | zero => omega
  | succ m ih =>
    cases i with
    | zero => simp [fillWith]
    | succ j =>
      have step := ih (pos + 1) j (by omega)
      simp only [fillWith, List.getD_cons_succ]
      rw [step]
      congr 1
      omega

theorem mem_idsOf_constructMany_ge (ps : List ConstructReq) :
    ∀ (s i : Nat), i ∈ idsOf (constructMany ps s).1 → s ≤ i := by
  induction ps with
  | nil =>
    intro s i h
    simp [constructMany, idsOf] at h
  | cons p rest ih =>
    intro s i h
    obtain ⟨sh, d⟩ := p
    simp only [constructMany, idsOf, List.map_cons, List.mem_cons] at h
    rcases h with h | h
    · simp [Tensor.new, next_id] at h
      omega
    · have := ih (Tensor.new sh d s).2 i h
      simp [Tensor.new, next_id] at this
      omega

theorem idsOf_constructMany_nodup (ps : List ConstructReq) :
    ∀ s : Nat, (idsOf (constructMany ps s).1).Nodup := by
  induction ps with
  | nil =>
    intro s
    simp [constructMany, idsOf]
  | cons p rest ih =>
    intro s
    obtain ⟨sh, d⟩ := p
    simp only [constructMany, idsOf, List.map_cons]
    refine List.nodup_cons.mpr ⟨?_, ih (Tensor.new sh d s).2⟩
    intro hmem
    have hge := mem_idsOf_constructMany_ge rest (Tensor.new sh d s).2 _ hmem
    simp [Tensor.new, next_id] at hge

/-! ### Claim theorems -/

/-- C1: for every tensor (any rank, via the shape-indexed embedding) and
every gradient tape, `update_with_gradients` sets the tensor's data to its
old data minus `tape.gradient_for(tensor.id())` elementwise — the element
count is preserved and every element `i` becomes exactly
`old[i] - gradient[i]`, one plain gradient-descent step with implicit step
size 1. (The Rust in-place mutation is rendered as returning the updated
record.) -/
theorem update_with_gradients_subtracts_gradient (sh : List Nat) (t : Tensor sh)
    (tp : GradientTape) (h : (tp.gradient_for t.id).length = t.data.length) :
    (t.update_with_gradients tp).data.length = t.data.length ∧
    ∀ i : Nat, i < t.data.length →
      (t.update_with_gradients tp).data.getD i 0 =
        t.data.getD i 0 - (tp.gradient_for t.id).getD i 0 := by
  constructor
  · simp [Tensor.update_with_gradients, sub_assign, h]
  · intro i hi
    exact zipWith_sub_getD t.data (tp.gradient_for t.id) i hi (by omega)

/-- Witness for C1 at the concrete rank-1 tensor `[4]` (id 7) and a tape
whose gradient is `[3]`. -/
theorem update_with_gradients_subtracts_gradient_witness :
    (sampleTape3.gradient_for sampleT1.id).length = sampleT1.data.length ∧
    ((sampleT1.update_with_gradients sampleTape3).data.length =
        sampleT1.data.length ∧
      ∀ i : Nat, i < sampleT1.data.length →
        (sampleT1.update_with_gradients sampleTape3).data.getD i 0 =
          sampleT1.data.getD i 0 -
            (sampleTape3.gradient_for sampleT1.id).getD i 0) :=
  ⟨rfl, update_with_gradients_subtracts_gradient [1] sampleT1 sampleTape3 rfl⟩

/-- C7: applying `update_with_gradients` with a tape whose gradient for the
tensor's id is an all-zero array of the tensor's element count leaves the
tensor's data unchanged (exactly, in this exact-arithmetic embedding). -/
theorem update_with_zero_gradient_noop (sh : List Nat) (t : Tensor sh)
    (tp : GradientTape)
    (h : tp.gradient_for t.id = List.replicate t.data.length 0) :
    (t.update_with_gradients tp).data = t.data := by
  simp [Tensor.update_with_gradients, sub_assign, h, zipWith_sub_replicate_zero]

/-- Witness for C7 at the concrete rank-1 tensor `[4, 5]` (id 2) and an
all-zero gradient tape. -/
theorem update_with_zero_gradient_noop_witness :
    sampleTapeZero.gradient_for sampleT2.id =
      List.replicate sampleT2.data.length 0 ∧
    (sampleT2.update_with_gradients sampleTapeZero).data = sampleT2.data :=
  ⟨rfl, update_with_zero_gradient_noop [2] sampleT2 sampleTapeZero rfl⟩

/-- C8: `update_with_gradients` writes only the `data` field — after the
call the tensor's id and its tape slot equal their values before the call. -/
theorem update_with_gradients_frame (sh : List Nat) (t : Tensor sh)
    (tp : GradientTape) :
    (t.update_with_gradients tp).id = t.id ∧
    (t.update_with_gradients tp).tape = t.tape :=
  ⟨rfl, rfl⟩

/-- C5: for every shape (including every rank 0–4 instantiation), `zeros`
returns a tensor whose data is `NUM_ELEMENTS` copies of `0`, and `ones` one
whose data is `NUM_ELEMENTS` copies of `1`, at the type's fixed compile-time
shape. -/
theorem zeros_ones_fill (sh : List Nat) (s : Nat) :
    (Tensor.zeros sh s).1.data = List.replicate (NUM_ELEMENTS sh) 0 ∧
    (Tensor.zeros sh s).1.data.length = NUM_ELEMENTS sh ∧
    (Tensor.ones sh s).1.data = List.replicate (NUM_ELEMENTS sh) 1 ∧
    (Tensor.ones sh s).1.data.length = NUM_ELEMENTS sh := by
  refine ⟨rfl, ?_, rfl, ?_⟩ <;>
    simp [Tensor.zeros, Tensor.ones, Tensor.new, ndarrayZeros, ndarrayOnes]

/-- C6: at each of the five rank instantiations, `NUM_ELEMENTS` (the
`prod!` macro) equals the product of the declared axis extents — with the
empty product 1 at rank 0 — and `SHAPE` (the `tupleify!` macro) equals the
tuple of those extents. -/
theorem num_elements_prod_shape_tuple :
    (NUM_ELEMENTS [] = 1) ∧
    (∀ m : Nat, NUM_ELEMENTS [m] = m) ∧
    (∀ m n : Nat, NUM_ELEMENTS [m, n] = m * n) ∧
    (∀ m n o : Nat, NUM_ELEMENTS [m, n, o] = m * n * o) ∧
    (∀ m n o p : Nat, NUM_ELEMENTS [m, n, o, p] = m * n * o * p) ∧
    (tupleify0 = ()) ∧
    (∀ m : Nat, tupleify1 m = m) ∧
    (∀ m n : Nat, tupleify2 m n = (m, n)) ∧
    (∀ m n o : Nat, tupleify3 m n o = (m, n, o)) ∧
    (∀ m n o p : Nat, tupleify4 m n o p = (m, n, o, p)) := by
  refine ⟨rfl, fun m => rfl, fun m n => rfl, ?_, ?_, rfl, fun m => rfl,
    fun m n => rfl, fun m n o => rfl, fun m n o p => rfl⟩
  · intro m n o
    simp [NUM_ELEMENTS, prodMacro, Nat.mul_assoc]
  · intro m n o p
    simp [NUM_ELEMENTS, prodMacro, Nat.mul_assoc]

/-- C9: the rank-0 tensor type has `NUM_ELEMENTS = 1` (the empty product),
and every rank-0 constructor produces a data array of exactly one element. -/
theorem tensor0d_single_element (s : Nat) (g : RandGen) :
    NUM_ELEMENTS [] = 1 ∧
    (Tensor.zeros [] s).1.data.length = 1 ∧
    (Tensor.ones [] s).1.data.length = 1 ∧
    (Tensor.rand [] g s).1.data.length = 1 ∧
    (Tensor.randn [] g s).1.data.length = 1 := by
  refine ⟨rfl, rfl, rfl, ?_, ?_⟩ <;>
    simp [Tensor.rand, Tensor.randn, Tensor.new, fillWith_length, NUM_ELEMENTS,
      prodMacro]

/-- C2: across any sequence of tensor constructions threaded through the
shared id counter, the issued ids are pairwise distinct; each construction
helper (`zeros`, `ones`, `rand`, `randn`) issues exactly one fresh id from
the counter and advances it; and no operation of the source file mutates an
id after construction — `update_with_gradients` and `randomize` (the only
mutators) leave it unchanged. -/
theorem tensor_ids_pairwise_distinct_and_immutable :
    (∀ (ps : List ConstructReq) (s : Nat), (idsOf (constructMany ps s).1).Nodup) ∧
    (∀ (sh : List Nat) (s : Nat),
      (Tensor.zeros sh s).1.id = s ∧ (Tensor.zeros sh s).2 = s + 1) ∧
    (∀ (sh : List Nat) (s : Nat),
      (Tensor.ones sh s).1.id = s ∧ (Tensor.ones sh s).2 = s + 1) ∧
    (∀ (sh : List Nat) (g : RandGen) (s : Nat),
      (Tensor.rand sh g s).1.id = s ∧ (Tensor.rand sh g s).2.2 = s + 1) ∧
    (∀ (sh : List Nat) (g : RandGen) (s : Nat),
      (Tensor.randn sh g s).1.id = s ∧ (Tensor.randn sh g s).2.2 = s + 1) ∧
    (∀ (sh : List Nat) (t : Tensor sh) (tp : GradientTape),
      (t.update_with_gradients tp).id = t.id) ∧
    (∀ (sh : List Nat) (t : Tensor sh) (draw : Nat → Rat) (pos : Nat),
      (t.randomize draw pos).1.id = t.id) :=
  ⟨fun ps s => idsOf_constructMany_nodup ps s,
   fun _ _ => ⟨rfl, rfl⟩, fun _ _ => ⟨rfl, rfl⟩,
   fun _ _ _ => ⟨rfl, rfl⟩, fun _ _ _ => ⟨rfl, rfl⟩,
   fun _ _ _ => rfl, fun _ _ _ _ => rfl⟩

/-- C3: every elementwise operation (`relu`, `sin`, `cos`, `ln`, `exp`,
`sigmoid`, `tanh`, `square`, `abs`) returns a tensor of the same shape
(same shape index, same element count) carrying a fresh id different from
the input's id, given the counter invariant that the counter exceeds every
already-issued id. -/
theorem elementwise_ops_preserve_shape_fresh_id (sh : List Nat) (F : DiffFns)
    (t : Tensor sh) (s : Nat) (h : t.id < s) :
    ((t.relu F s).1.data.length = t.data.length ∧ (t.relu F s).1.id ≠ t.id) ∧
    ((t.sin F s).1.data.length = t.data.length ∧ (t.sin F s).1.id ≠ t.id) ∧
    ((t.cos F s).1.data.length = t.data.length ∧ (t.cos F s).1.id ≠ t.id) ∧
    ((t.ln F s).1.data.length = t.data.length ∧ (t.ln F s).1.id ≠ t.id) ∧
    ((t.exp F s).1.data.length = t.data.length ∧ (t.exp F s).1.id ≠ t.id) ∧
    ((t.sigmoid F s).1.data.length = t.data.length ∧ (t.sigmoid F s).1.id ≠ t.id) ∧
    ((t.tanh F s).1.data.length = t.data.length ∧ (t.tanh F s).1.id ≠ t.id) ∧
    ((t.square F s).1.data.length = t.data.length ∧ (t.square F s).1.id ≠ t.id) ∧
    ((t.abs F s).1.data.length = t.data.length ∧ (t.abs F s).1.id ≠ t.id) := by
  have key : ∀ op : OpDescr,
      (t.apply op s).1.data.length = t.data.length ∧ (t.apply op s).1.id ≠ t.id := by
    intro op
    constructor
    · simp [Tensor.apply]
    · simp only [Tensor.apply, next_id]
      omega
  exact ⟨key F.ReLU, key F.Sin, key F.Cos, key F.Ln, key F.Exp, key F.Sigmoid,
    key F.Tanh, key F.Square, key F.Abs⟩

/-- Witness for C3 at the concrete rank-1 tensor `[3]` (id 0), the sample
descriptor bundle, and counter state 5. -/
theorem elementwise_ops_preserve_shape_fresh_id_witness :
    sampleTensor.id < 5 ∧
    (((sampleTensor.relu sampleFns 5).1.data.length = sampleTensor.data.length ∧
        (sampleTensor.relu sampleFns 5).1.id ≠ sampleTensor.id) ∧
     ((sampleTensor.sin sampleFns 5).1.data.length = sampleTensor.data.length ∧
        (sampleTensor.sin sampleFns 5).1.id ≠ sampleTensor.id) ∧
     ((sampleTensor.cos sampleFns 5).1.data.length = sampleTensor.data.length ∧
        (sampleTensor.cos sampleFns 5).1.id ≠ sampleTensor.id) ∧
     ((sampleTensor.ln sampleFns 5).1.data.length = sampleTensor.data.length ∧
        (sampleTensor.ln sampleFns 5).1.id ≠ sampleTensor.id) ∧
     ((sampleTensor.exp sampleFns 5).1.data.length = sampleTensor.data.length ∧
        (sampleTensor.exp sampleFns 5).1.id ≠ sampleTensor.id) ∧
     ((sampleTensor.sigmoid sampleFns 5).1.data.length = sampleTensor.data.length ∧
        (sampleTensor.sigmoid sampleFns 5).1.id ≠ sampleTensor.id) ∧
     ((sampleTensor.tanh sampleFns 5).1.data.length = sampleTensor.data.length ∧
        (sampleTensor.tanh sampleFns 5).1.id ≠ sampleTensor.id) ∧
     ((sampleTensor.square sampleFns 5).1.data.length = sampleTensor.data.length ∧
        (sampleTensor.square sampleFns 5).1.id ≠ sampleTensor.id) ∧
     ((sampleTensor.abs sampleFns 5).1.data.length = sampleTensor.data.length ∧
        (sampleTensor.abs sampleFns 5).1.id ≠ sampleTensor.id)) :=
  ⟨by decide,
   elementwise_ops_preserve_shape_fresh_id [1] sampleFns sampleTensor 5 (by decide)⟩

/-- C4: each of the nine named elementwise operations equals the generic
apply mechanism instantiated with its matching operation descriptor, for
every input tensor, descriptor bundle and counter state. -/
theorem named_ops_delegate_to_apply (sh : List Nat) (F : DiffFns)
    (t : Tensor sh) (s : Nat) :
    t.relu F s = t.apply F.ReLU s ∧
    t.sin F s = t.apply F.Sin s ∧
    t.cos F s = t.apply F.Cos s ∧
    t.ln F s = t.apply F.Ln s ∧
    t.exp F s = t.apply F.Exp s ∧
    t.sigmoid F s = t.apply F.Sigmoid s ∧
    t.tanh F s = t.apply F.Tanh s ∧
    t.square F s = t.apply F.Square s ∧
    t.abs F s = t.apply F.Abs s :=
  ⟨rfl, rfl, rfl, rfl, rfl, rfl, rfl, rfl, rfl⟩

/-- C10: `rand` and `randn` are deterministic functions of the supplied
generator's state — generators in identical states produce identical data —
and the elements are drawn at successive stream positions in the fixed
(row-major memory) traversal order: element `i` is the draw at position
`state + i`. -/
theorem rand_randn_deterministic_fixed_order (sh : List Nat) (g₁ g₂ : RandGen)
    (s₁ s₂ : Nat) (h : g₁ = g₂) :
    (Tensor.rand sh g₁ s₁).1.data = (Tensor.rand sh g₂ s₂).1.data ∧
    (Tensor.randn sh g₁ s₁).1.data = (Tensor.randn sh g₂ s₂).1.data ∧
    (∀ i : Nat, i < NUM_ELEMENTS sh →
      (Tensor.rand sh g₁ s₁).1.data.getD i 0 = g₁.uniform (g₁.state + i)) ∧
    (∀ i : Nat, i < NUM_ELEMENTS sh →
      (Tensor.randn sh g₁ s₁).1.data.getD i 0 = g₁.normal (g₁.state + i)) := by
  subst h
  refine ⟨rfl, rfl, ?_, ?_⟩
  · intro i hi
    simpa [Tensor.rand, Tensor.new] using
      fillWith_getD g₁.uniform (NUM_ELEMENTS sh) g₁.state i hi
  · intro i hi
    simpa [Tensor.randn, Tensor.new] using
      fillWith_getD g₁.normal (NUM_ELEMENTS sh) g₁.state i hi

/-- Witness for C10 at shape `[2]`, the sample generator (taken twice, in
the same state) and two different counter states. -/
theorem rand_randn_deterministic_fixed_order_witness :
    sampleGen = sampleGen ∧
    ((Tensor.rand [2] sampleGen 0).1.data = (Tensor.rand [2] sampleGen 3).1.data ∧
     (Tensor.randn [2] sampleGen 0).1.data = (Tensor.randn [2] sampleGen 3).1.data ∧
     (∀ i : Nat, i < NUM_ELEMENTS [2] →
       (Tensor.rand [2] sampleGen 0).1.data.getD i 0 =
         sampleGen.uniform (sampleGen.state + i)) ∧
     (∀ i : Nat, i < NUM_ELEMENTS [2] →
       (Tensor.randn [2] sampleGen 0).1.data.getD i 0 =
         sampleGen.normal (sampleGen.state + i))) :=
  ⟨rfl, rand_randn_deterministic_fixed_order [2] sampleGen sampleGen 0 3 rfl⟩

end Dfdx
